import Mathlib

/-!
Verification of the ultrathink session core (`ultrathink.py`).

This file gives a shallow embedding of the program's data model and of the
operations the specification talks about:

* `Assumption`, `Thought`, `ThinkingSession` mirror the pydantic models and
  the `ThinkingSession` class;
* `addThought` mirrors `ThinkingSession.add_thought`, returning the session
  state after the call together with an optional error.  Python mutates the
  session in place and raises `ValueError`; the returned state therefore keeps
  every mutation performed before the raise (the source's documented
  non-atomicity);
* `validateSessionId` / `sessionFilePathSuffix` mirror `_validate_session_id`
  and `_session_file_path`, including the semantics of Python's `re.match`
  where `$` also matches just before a single trailing newline;
* `Json`, `saveSessionJson`, `reconstructSession` mirror `save_session` and
  `load_session` at the level of the decoded JSON document.  Exceptions that
  `load_session` catches (`KeyError`, `TypeError`, `ValidationError`) are
  modelled as the `absent` outcome; exceptions it does not catch
  (`AttributeError`) as the `raised` outcome;
* `resolveCross` mirrors `UltraThinkService._resolve_cross_session_assumption`
  and `processThoughtWith` mirrors the per-session part of
  `UltraThinkService.process_thought`.

Numbers: Python ints are `Int`; floats are modelled exactly as `ℚ` (every
float literal used by the program is a finite value and the program performs
no float arithmetic, only comparisons and copying).
-/

/-! ## Basic helpers -/

/-- Insert into a list sorted by `le` (insertion sort auxiliary). -/
def insertLe (le : α → α → Bool) (x : α) : List α → List α
  | [] => [x]
  | y :: ys => if le x y then x :: y :: ys else y :: insertLe le x ys

/-- Insertion sort by `le`; used to model Python's `sorted`. -/
def sortLe (le : α → α → Bool) : List α → List α
  | [] => []
  | x :: xs => insertLe le x (sortLe le xs)

/-- Python `sorted` on a set of ints: sort the deduplicated list. -/
def sortInt (l : List Int) : List Int := sortLe (fun a b => decide (a ≤ b)) l

/-- Lexicographic comparison of char lists by code point, as Python compares
strings. -/
def strLeAux : List Char → List Char → Bool
  | [], _ => true
  | _ :: _, [] => false
  | a :: as, b :: bs => if a = b then strLeAux as bs else decide (a < b)

/-- Python `<=` on strings. -/
def strLe (x y : String) : Bool := strLeAux x.toList y.toList

/-- Python `sorted` on strings. -/
def sortStr (l : List String) : List String := sortLe strLe l

/-- Python `":" in s`. -/
def hasColon (s : String) : Bool := s.toList.contains ':'

/-- Split a char list at the first occurrence of `c`: `none` when `c` does
not occur.  Models Python's `split(c, 1)`. -/
def splitFirstChar (c : Char) : List Char → Option (List Char × List Char)
  | [] => none
  | x :: rest =>
      if x = c then some ([], rest)
      else (splitFirstChar c rest).map (fun p => (x :: p.1, p.2))

/-- Split a char list at every occurrence of `c` (Python `split(c)`; always
at least one piece). -/
def splitChar (c : Char) : List Char → List (List Char)
  | [] => [[]]
  | x :: rest =>
      let r := splitChar c rest
      if x = c then [] :: r
      else
        match r with
        | [] => [[x]]
        | h :: t => (x :: h) :: t

/-- Drop duplicate ints (which occurrence survives is irrelevant: the result
is only ever sorted, modelling Python's `sorted(set(...))`). -/
def dedupInt : List Int → List Int
  | [] => []
  | x :: xs => if xs.contains x then dedupInt xs else x :: dedupInt xs

/-- Lookup in an insertion-ordered association list (Python `dict` access;
keys built by the operations below are unique, so first match suffices). -/
def alistLookup : List (String × α) → String → Option α
  | [], _ => none
  | (k, v) :: rest, key => if k = key then some v else alistLookup rest key

/-- Replace the value stored under `key` in place (Python mutates the stored
object; dict order is unchanged). -/
def alistUpdate : List (String × α) → String → (α → α) → List (String × α)
  | [], _, _ => []
  | (k, v) :: rest, key, f =>
      if k = key then (k, f v) :: alistUpdate rest key f
      else (k, v) :: alistUpdate rest key f

/-! ## Data model: Assumption and Thought -/

/-- The `verification_status` literal of the `Assumption` model. -/
inductive VStatus where
  | unverified
  | verified_true
  | verified_false
deriving DecidableEq, Repr

/-- The `Assumption` pydantic model (fields in declaration order). -/
structure Assumption where
  id : String
  text : String
  confidence : ℚ
  critical : Bool
  verifiable : Bool
  evidence : Option String
  verification_status : Option VStatus
deriving DecidableEq, Repr

/-- `Assumption.is_falsified`. -/
def Assumption.is_falsified (a : Assumption) : Bool :=
  a.verification_status = some VStatus.verified_false

/-- `Assumption.is_risky`. -/
def Assumption.is_risky (a : Assumption) : Bool :=
  a.critical && decide (a.confidence < 7/10)
    && !(a.verification_status = some VStatus.verified_true)

/-- The `Thought` pydantic model (fields in declaration order). -/
structure Thought where
  thought : String
  thought_number : Int
  total_thoughts : Int
  next_thought_needed : Bool
  is_revision : Option Bool
  revises_thought : Option Int
  branch_from_thought : Option Int
  branch_id : Option String
  needs_more_thoughts : Option Bool
  confidence : Option ℚ
  uncertainty_notes : Option String
  outcome : Option String
  assumptions : Option (List Assumption)
  depends_on_assumptions : Option (List String)
  invalidates_assumptions : Option (List String)
deriving DecidableEq, Repr

/-- Python truthiness of an `int | None` value. -/
def optIntTruthy : Option Int → Bool
  | none => false
  | some n => n != 0

/-- Python truthiness of a `str | None` value. -/
def optStrTruthy : Option String → Bool
  | none => false
  | some s => s != ""

/-- `Thought.is_branch`: `bool(self.branch_from_thought and self.branch_id)`. -/
def Thought.is_branch (t : Thought) : Bool :=
  optIntTruthy t.branch_from_thought && optStrTruthy t.branch_id

/-- Truthiness of `self.is_revision` (a `bool | None` field). -/
def Thought.isRevisionTruthy (t : Thought) : Bool :=
  t.is_revision = some true

/-- `Thought.auto_adjust_total`: `total_thoughts = max(thought_number,
total_thoughts)` (the source mutates the thought in place). -/
def adjustTotal (t : Thought) : Thought :=
  { t with total_thoughts := max t.thought_number t.total_thoughts }

/-! ## Session -/

/-- The `ThinkingSession` state.  `branches` and `assumptions` model the
insertion-ordered dicts `_branches` and `_assumptions`. -/
structure ThinkingSession where
  thoughts : List Thought
  branches : List (String × List Thought)
  assumptions : List (String × Assumption)
  unresolved_refs : List String
  cross_session_warnings : List String
deriving DecidableEq, Repr

/-- `ThinkingSession.__init__`. -/
def thinkEmpty : ThinkingSession :=
  { thoughts := [], branches := [], assumptions := [],
    unresolved_refs := [], cross_session_warnings := [] }

/-- `ThinkingSession.thought_count`. -/
def ThinkingSession.thought_count (s : ThinkingSession) : Nat := s.thoughts.length

/-- `ThinkingSession.branch_ids`. -/
def ThinkingSession.branch_ids (s : ThinkingSession) : List String :=
  s.branches.map Prod.fst

/-- Ids with `is_falsified` among an assumption registry, in dict order
(`ThinkingSession.falsified_assumptions`). -/
def falsifiedOf (l : List (String × Assumption)) : List String :=
  (l.filter (fun p => p.2.is_falsified)).map Prod.fst

/-- `ThinkingSession.falsified_assumptions`. -/
def ThinkingSession.falsified_assumptions (s : ThinkingSession) : List String :=
  falsifiedOf s.assumptions

/-- Ids with `is_risky` (`ThinkingSession.risky_assumptions`). -/
def riskyOf (l : List (String × Assumption)) : List String :=
  (l.filter (fun p => p.2.is_risky)).map Prod.fst

/-- `_parse_assumption_id`: split on the first colon; no colon means a local
id. -/
def parseAssumptionId (s : String) : Option String × String :=
  match splitFirstChar ':' s.toList with
  | some (p, rest) => (some (String.mk p), String.mk rest)
  | none => (none, s)

/-- The set of `thought_number`s already in the log (`{t.thought_number for t
in self._thoughts}`; membership and emptiness agree with the Python set). -/
def thoughtNumbers (s : ThinkingSession) : List Int :=
  s.thoughts.map (fun t => t.thought_number)

/-! ## Errors raised by `add_thought` / `validate_references`

The source raises `ValueError` with a formatted message; each constructor
records the data interpolated into that message.  The `available` payloads
carry the sorted id/number lists the message prints (the source prints the
string "none" when the list of known assumption ids is empty). -/

inductive AddError where
  | danglingReviseEmpty (n : Int)
  | danglingRevise (n : Int) (available : List Int)
  | danglingBranchEmpty (n : Int)
  | danglingBranch (n : Int) (available : List Int)
  | unknownDependency (id : String) (available : List String)
  | textMismatch (id : String) (existing : String) (attempted : String)
  | criticalMismatch (id : String) (existing : Bool) (attempted : Bool)
  | unknownInvalidation (id : String) (available : List String)
deriving DecidableEq, Repr

/-- First half of `Thought.validate_references` (the `revises_thought`
check). -/
def reviseError (t : Thought) (existing : List Int) : Option AddError :=
  match t.revises_thought with
  | some n =>
      if t.isRevisionTruthy && !(existing.contains n) then
        some (if existing.isEmpty then AddError.danglingReviseEmpty n
              else AddError.danglingRevise n (sortInt (dedupInt existing)))
      else none
  | none => none

/-- Second half of `Thought.validate_references` (the `branch_from_thought`
check). -/
def branchError (t : Thought) (existing : List Int) : Option AddError :=
  match t.branch_from_thought with
  | some n =>
      if t.is_branch && !(existing.contains n) then
        some (if existing.isEmpty then AddError.danglingBranchEmpty n
              else AddError.danglingBranch n (sortInt (dedupInt existing)))
      else none
  | none => none

/-- `Thought.validate_references`: the revises check runs first and wins. -/
def validateReferences (t : Thought) (existing : List Int) : Option AddError :=
  match reviseError t existing with
  | some e => some e
  | none => branchError t existing

/-! ## `add_thought` step 3: `depends_on_assumptions` -/

/-- One iteration of the `depends_on_assumptions` loop.  Note the Python
condition `validated_cross_session_refs and assumption_id in
validated_cross_session_refs`: an empty validated list is falsy. -/
def dependsStep (s : ThinkingSession) (refs : List String) (aid : String) :
    ThinkingSession × Option AddError :=
  match (parseAssumptionId aid).1 with
  | none =>
      if (alistLookup s.assumptions aid).isSome then (s, none)
      else (s, some (AddError.unknownDependency aid
        (sortStr (s.assumptions.map Prod.fst))))
  | some _ =>
      if !refs.isEmpty && refs.contains aid then (s, none)
      else if s.unresolved_refs.contains aid then (s, none)
      else ({ s with unresolved_refs := s.unresolved_refs ++ [aid] }, none)

/-- The `depends_on_assumptions` loop; a raise aborts the loop leaving the
mutations already made. -/
def dependsLoop (s : ThinkingSession) (refs : List String) :
    List String → ThinkingSession × Option AddError
  | [] => (s, none)
  | aid :: rest =>
      match dependsStep s refs aid with
      | (s1, some e) => (s1, some e)
      | (s1, none) => dependsLoop s1 refs rest

/-! ## `add_thought` step 4: upserts of declared assumptions -/

/-- One iteration of the `assumptions` loop: the registry upsert.  `text`
and `critical` are immutable; the four mutable fields are overwritten on the
stored record. -/
def upsertStep (s : ThinkingSession) (a : Assumption) :
    ThinkingSession × Option AddError :=
  match alistLookup s.assumptions a.id with
  | some existing =>
      if existing.text ≠ a.text then
        (s, some (AddError.textMismatch a.id existing.text a.text))
      else if existing.critical ≠ a.critical then
        (s, some (AddError.criticalMismatch a.id existing.critical a.critical))
      else
        ({ s with assumptions := alistUpdate s.assumptions a.id (fun old =>
            { old with confidence := a.confidence, verifiable := a.verifiable,
                       evidence := a.evidence,
                       verification_status := a.verification_status }) }, none)
  | none =>
      ({ s with assumptions := s.assumptions ++ [(a.id, a)] }, none)

/-- The `assumptions` loop. -/
def upsertLoop (s : ThinkingSession) :
    List Assumption → ThinkingSession × Option AddError
  | [] => (s, none)
  | a :: rest =>
      match upsertStep s a with
      | (s1, some e) => (s1, some e)
      | (s1, none) => upsertLoop s1 rest

/-! ## `add_thought` step 5: `invalidates_assumptions` -/

/-- The warning string appended for a scoped invalidation target. -/
def crossWarning (aid : String) : String :=
  "Cannot invalidate cross-session assumption " ++ aid ++
    ": cross-session invalidation not supported"

/-- One iteration of the `invalidates_assumptions` loop. -/
def invalidateStep (s : ThinkingSession) (aid : String) :
    ThinkingSession × Option AddError :=
  match (parseAssumptionId aid).1 with
  | none =>
      if (alistLookup s.assumptions aid).isSome then
        ({ s with assumptions := alistUpdate s.assumptions aid (fun a =>
            { a with verification_status := some VStatus.verified_false }) },
         none)
      else
        (s, some (AddError.unknownInvalidation aid
          (sortStr (s.assumptions.map Prod.fst))))
  | some _ =>
      ({ s with cross_session_warnings :=
          s.cross_session_warnings ++ [crossWarning aid] }, none)

/-- The `invalidates_assumptions` loop. -/
def invalidateLoop (s : ThinkingSession) :
    List String → ThinkingSession × Option AddError
  | [] => (s, none)
  | aid :: rest =>
      match invalidateStep s aid with
      | (s1, some e) => (s1, some e)
      | (s1, none) => invalidateLoop s1 rest

/-! ## `add_thought` step 6 and the whole append -/

/-- Append a branch thought to `branches[branch_id]`, creating the branch if
absent. -/
def branchAppend (bs : List (String × List Thought)) (bid : String)
    (t : Thought) : List (String × List Thought) :=
  if (alistLookup bs bid).isSome then alistUpdate bs bid (fun l => l ++ [t])
  else bs ++ [(bid, [t])]

/-- `ThinkingSession.add_thought`.  Returns the session state after the call
(Python mutates in place, so an error keeps every mutation made before the
raise) together with the raised error, if any.  The Python guards
`if thought.depends_on_assumptions:` etc. are truthiness tests; a `None` or
empty list runs the loop zero times, which `Option.getD []` reproduces. -/
def addThought (s : ThinkingSession) (t0 : Thought) (refs : List String) :
    ThinkingSession × Option AddError :=
  let t := adjustTotal t0
  match validateReferences t (thoughtNumbers s) with
  | some e => (s, some e)
  | none =>
    match dependsLoop s refs (t.depends_on_assumptions.getD []) with
    | (s1, some e) => (s1, some e)
    | (s1, none) =>
      match upsertLoop s1 (t.assumptions.getD []) with
      | (s2, some e) => (s2, some e)
      | (s2, none) =>
        match invalidateLoop s2 (t.invalidates_assumptions.getD []) with
        | (s3, some e) => (s3, some e)
        | (s3, none) =>
          let s4 := { s3 with thoughts := s3.thoughts ++ [t] }
          (if t.is_branch then
             match t.branch_id with
             | some bid => { s4 with branches := branchAppend s4.branches bid t }
             | none => s4
           else s4, none)

/-! ## Session identifier validation (`_validate_session_id`,
`_session_file_path`) -/

/-- A character of the class `[a-zA-Z0-9_-]`. -/
def allowedIdChar (c : Char) : Bool :=
  c.isAlpha || c.isDigit || c = '_' || c = '-'

/-- Python's `re.match(r"^[a-zA-Z0-9_-]+$", s)`: in Python `re`, `$` matches
at the end of the string or just before a newline at the end of the string,
so a single trailing newline is tolerated by the pattern. -/
def pyIdPatternMatch (s : String) : Bool :=
  let cs := s.toList
  (!cs.isEmpty && cs.all allowedIdChar) ||
  (match cs.getLast? with
   | some c =>
       c = '\n' && !cs.dropLast.isEmpty && cs.dropLast.all allowedIdChar
   | none => false)

/-- The three `InvalidIdentifier` failure modes of `_validate_session_id`. -/
inductive IdError where
  | emptyId
  | tooLong
  | badChars
deriving DecidableEq, Repr

/-- `_validate_session_id` (the returned error is the `ValueError` the
source raises; `none` means the id is accepted). -/
def validateSessionId (s : String) : Option IdError :=
  if s = "" then some IdError.emptyId
  else if s.length > 128 then some IdError.tooLong
  else if !pyIdPatternMatch s then some IdError.badChars
  else none

/-- `_session_file_path`: validation runs first; only then is the file name
`f"{session_id}.json"` built (we model the per-session suffix of the path). -/
def sessionFilePathSuffix (s : String) : Option String :=
  match validateSessionId s with
  | some _ => none
  | none => some (s ++ ".json")

/-- The identifier rule as the specification states it: non-empty, at most
128 characters, only ASCII letters, digits, hyphen, underscore. -/
def specSessionIdOk (s : String) : Bool :=
  s ≠ "" && s.length ≤ 128 && s.toList.all allowedIdChar

/-! ## JSON documents

`Json` models the Python value produced by `json.load`: JSON integers decode
to `int` and JSON decimals to `float`, which pydantic's strict mode tells
apart.  `obj` is an insertion-ordered dict with unique keys (as produced by
`json.load` and by `save_session`). -/

inductive Json where
  | null
  | bool (b : Bool)
  | int (n : Int)
  | float (q : ℚ)
  | str (s : String)
  | arr (xs : List Json)
  | obj (kvs : List (String × Json))

/-- Python truthiness of a decoded JSON value. -/
def jTruthy : Json → Bool
  | Json.null => false
  | Json.bool b => b
  | Json.int n => n != 0
  | Json.float q => q != 0
  | Json.str s => s != ""
  | Json.arr xs => !xs.isEmpty
  | Json.obj kvs => !kvs.isEmpty

/-! ## `save_session` -/

/-- Serialize a `str | None` field. -/
def dumpOptStr : Option String → Json
  | none => Json.null
  | some s => Json.str s

/-- Serialize an `int | None` field. -/
def dumpOptInt : Option Int → Json
  | none => Json.null
  | some n => Json.int n

/-- Serialize a `bool | None` field. -/
def dumpOptBool : Option Bool → Json
  | none => Json.null
  | some b => Json.bool b

/-- Serialize a `float | None` field. -/
def dumpOptFloat : Option ℚ → Json
  | none => Json.null
  | some q => Json.float q

/-- Serialize a `verification_status` value. -/
def dumpVStatus : Option VStatus → Json
  | none => Json.null
  | some VStatus.unverified => Json.str "unverified"
  | some VStatus.verified_true => Json.str "verified_true"
  | some VStatus.verified_false => Json.str "verified_false"

/-- `Assumption.model_dump()` (keys in field declaration order). -/
def dumpAssumption (a : Assumption) : Json :=
  Json.obj [("id", Json.str a.id), ("text", Json.str a.text),
    ("confidence", Json.float a.confidence), ("critical", Json.bool a.critical),
    ("verifiable", Json.bool a.verifiable), ("evidence", dumpOptStr a.evidence),
    ("verification_status", dumpVStatus a.verification_status)]

/-- The per-thought dict literal of `save_session`.  `assumptions` uses the
truthiness guard `[...] if t.assumptions else None`, so both `None` and an
empty list serialize to `null`; the two id-list fields are stored verbatim. -/
def dumpThought (t : Thought) : Json :=
  Json.obj [("thought", Json.str t.thought),
    ("thought_number", Json.int t.thought_number),
    ("total_thoughts", Json.int t.total_thoughts),
    ("next_thought_needed", Json.bool t.next_thought_needed),
    ("is_revision", dumpOptBool t.is_revision),
    ("revises_thought", dumpOptInt t.revises_thought),
    ("branch_from_thought", dumpOptInt t.branch_from_thought),
    ("branch_id", dumpOptStr t.branch_id),
    ("needs_more_thoughts", dumpOptBool t.needs_more_thoughts),
    ("confidence", dumpOptFloat t.confidence),
    ("uncertainty_notes", dumpOptStr t.uncertainty_notes),
    ("outcome", dumpOptStr t.outcome),
    ("assumptions",
      match t.assumptions with
      | some l => if l.isEmpty then Json.null else Json.arr (l.map dumpAssumption)
      | none => Json.null),
    ("depends_on_assumptions",
      match t.depends_on_assumptions with
      | some l => Json.arr (l.map Json.str)
      | none => Json.null),
    ("invalidates_assumptions",
      match t.invalidates_assumptions with
      | some l => Json.arr (l.map Json.str)
      | none => Json.null)]

/-- The document `save_session` writes for a session. -/
def saveSessionJson (s : ThinkingSession) : Json :=
  Json.obj [("thoughts", Json.arr (s.thoughts.map dumpThought)),
    ("assumptions", Json.obj (s.assumptions.map (fun p => (p.1, dumpAssumption p.2)))),
    ("branches", Json.obj (s.branches.map (fun p =>
      (p.1, Json.arr (p.2.map (fun t => Json.int t.thought_number)))))),
    ("unresolved_refs", Json.arr (s.unresolved_refs.map Json.str)),
    ("cross_session_warnings", Json.arr (s.cross_session_warnings.map Json.str))]

/-! ## `load_session`

`load_session` wraps reconstruction in `except (KeyError, TypeError,
ValidationError)` and returns `None` on those; any other exception —
notably `AttributeError` from calling `.get`/`.items()` on a value that is
not a dict — propagates to the caller.  `LoadRes.absent` models the caught
(`return None`) outcome, `LoadRes.raised` the uncaught one. -/

inductive LoadRes where
  | raised
  | absent
  | loaded (s : ThinkingSession)
deriving DecidableEq, Repr

/-- The characters Python's `str.strip()` removes (ASCII whitespace; the
unicode whitespace also stripped by Python never occurs in this
development). -/
def isPyWhitespace (c : Char) : Bool :=
  c = ' ' || c = '\t' || c = '\n' || c = '\r' || c = '\x0b' || c = '\x0c'

/-- Strict-mode `str` field: only an actual string is accepted. -/
def parseStrictStr : Json → Option String
  | Json.str s => some s
  | _ => none

/-- Strict-mode `str | None` field. -/
def parseOptStrJ : Json → Option (Option String)
  | Json.null => some none
  | Json.str s => some (some s)
  | _ => none

/-- Strict-mode `bool` field (JSON `true`/`false` only). -/
def parseBoolJ : Json → Option Bool
  | Json.bool b => some b
  | _ => none

/-- Strict-mode `bool | None` field. -/
def parseOptBoolJ : Json → Option (Option Bool)
  | Json.null => some none
  | Json.bool b => some (some b)
  | _ => none

/-- Strict-mode `int` field with `ge=1`.  A JSON decimal decodes to a Python
float, which strict mode rejects for `int`; so does a bool. -/
def parseIntGe1 : Json → Option Int
  | Json.int n => if 1 ≤ n then some n else none
  | _ => none

/-- Strict-mode `int | None` field with `ge=1`. -/
def parseOptIntGe1 : Json → Option (Option Int)
  | Json.null => some none
  | Json.int n => if 1 ≤ n then some (some n) else none
  | _ => none

/-- Strict-mode `float | None` field with bounds `[0, 1]` (strict mode
accepts an int for a float field). -/
def parseOptConfidence : Json → Option (Option ℚ)
  | Json.null => some none
  | Json.int n => if 0 ≤ n ∧ n ≤ 1 then some (some (n : ℚ)) else none
  | Json.float q => if 0 ≤ q ∧ q ≤ 1 then some (some q) else none
  | _ => none

/-- The `verification_status` literal field. -/
def parseVStatusJ : Json → Option (Option VStatus)
  | Json.null => some none
  | Json.str s =>
      if s = "unverified" then some (some VStatus.unverified)
      else if s = "verified_true" then some (some VStatus.verified_true)
      else if s = "verified_false" then some (some VStatus.verified_false)
      else none
  | _ => none

/-- A character of the class `[\w-]`, restricted to its ASCII subset (no
identifier in this development uses non-ASCII word characters). -/
def wordDashChar (c : Char) : Bool := c.isAlphanum || c = '_' || c = '-'

/-- The branch `A\d+` of the assumption id pattern. -/
def localAssumptionIdOk (cs : List Char) : Bool :=
  match cs with
  | 'A' :: rest => !rest.isEmpty && rest.all Char.isDigit
  | _ => false

/-- The `Assumption.id` pattern `^(A\d+|[\w-]+:A\d+)$`: neither alternative
admits a colon inside its pieces, so the id is valid exactly when splitting
on `:` yields one or two pieces of the right shapes. -/
def assumptionIdOk (s : String) : Bool :=
  match splitChar ':' s.toList with
  | [x] => localAssumptionIdOk x
  | [p, x] => !p.isEmpty && p.all wordDashChar && localAssumptionIdOk x
  | _ => false

/-- Strict-mode `float` field with default `1.0` for an absent key (strict
mode accepts an int for a float field). -/
def parseConfidenceDflt : Option Json → Option ℚ
  | none => some 1
  | some (Json.int n) => some ((n : ℚ))
  | some (Json.float q) => some q
  | some _ => none

/-- Strict-mode `bool` field with a default for an absent key. -/
def parseBoolDflt (dflt : Bool) : Option Json → Option Bool
  | none => some dflt
  | some j => parseBoolJ j

/-- `Assumption(**assumption_data)` on a decoded JSON dict, in pydantic
strict mode: required `id` (pattern-checked) and `text` (min length 1),
defaults `confidence=1.0`, `critical=True`, `verifiable=False`,
`evidence=None`, `verification_status=None`; extra keys are ignored.
`none` models the `ValidationError` raised on any violation. -/
def parseAssumptionObj (kvs : List (String × Json)) : Option Assumption :=
  (alistLookup kvs "id").bind fun idj =>
  (parseStrictStr idj).bind fun aidStr =>
  if !assumptionIdOk aidStr then none else
  (alistLookup kvs "text").bind fun tj =>
  (parseStrictStr tj).bind fun textStr =>
  if textStr = "" then none else
  (parseConfidenceDflt (alistLookup kvs "confidence")).bind fun conf =>
  if !(decide (0 ≤ conf) && decide (conf ≤ 1)) then none else
  (parseBoolDflt true (alistLookup kvs "critical")).bind fun criticalB =>
  (parseBoolDflt false (alistLookup kvs "verifiable")).bind fun verifiableB =>
  (parseOptStrJ ((alistLookup kvs "evidence").getD Json.null)).bind fun evidenceV =>
  (parseVStatusJ ((alistLookup kvs "verification_status").getD Json.null)).bind
    fun vstatus =>
  some { id := aidStr, text := textStr, confidence := conf, critical := criticalB,
         verifiable := verifiableB, evidence := evidenceV,
         verification_status := vstatus }

/-- The loop `for aid, assumption_data in data.get("assumptions", {}).items():
session._assumptions[aid] = Assumption(**assumption_data)`.  A non-dict entry
value makes `Assumption(**...)` raise `TypeError` (caught), an invalid dict a
`ValidationError` (caught); both are `none` here. -/
def loadAssumptionsLoop : List (String × Json) → Option (List (String × Assumption))
  | [] => some []
  | (aid, j) :: rest =>
      match j with
      | Json.obj o =>
          match parseAssumptionObj o with
          | some a => (loadAssumptionsLoop rest).map (fun m => (aid, a) :: m)
          | none => none
      | _ => none

/-- `_parse_json_list` + strict `list[str]` validation for the
`depends_on_assumptions` / `invalidates_assumptions` fields of a decoded
thought dict.  The crucial branch: on an actual Python list the helper
evaluates `value in {"", "null"}`, which hashes the (unhashable) list and
raises `TypeError` — caught by `load_session`.  The `json.loads` branch for
a non-empty string is never produced by `save_session` and is not exercised
by any claim; it is conservatively mapped to a caught failure. -/
def parseIdListField : Json → Option (Option (List String))
  | Json.null => some none
  | Json.str s => if s = "" || s = "null" then some none else none
  | Json.arr _ => none
  | _ => none

/-- The `assumptions` field of a decoded thought dict when its value is
falsy (the truthy case is intercepted earlier by `load_session`): `None` and
`""` coerce to `None`; an empty list still raises the `TypeError` of the
membership test; other falsy values raise `ValueError` in the coercion
helper, wrapped as `ValidationError`.  All failures are caught. -/
def parseFalsyAssumptionsField : Json → Option (Option (List Assumption))
  | Json.null => some none
  | Json.str s => if s = "" then some none else none
  | Json.arr _ => none
  | _ => none

/-- The four required `Thought` fields (strict mode, including the
non-whitespace validator on `thought`). -/
def parseThoughtRequired (tkvs : List (String × Json)) :
    Option (String × Int × Int × Bool) :=
  (alistLookup tkvs "thought").bind fun thj =>
  (parseStrictStr thj).bind fun th =>
  if th.toList.all isPyWhitespace then none else
  (alistLookup tkvs "thought_number").bind fun nj =>
  (parseIntGe1 nj).bind fun n =>
  (alistLookup tkvs "total_thoughts").bind fun totj =>
  (parseIntGe1 totj).bind fun tot =>
  (alistLookup tkvs "next_thought_needed").bind fun nxtj =>
  (parseBoolJ nxtj).bind fun nxt =>
  some (th, n, tot, nxt)

/-- The revision/branch group of optional `Thought` fields. -/
def parseThoughtRevisionFields (tkvs : List (String × Json)) :
    Option (Option Bool × Option Int × Option Int × Option String × Option Bool) :=
  (parseOptBoolJ ((alistLookup tkvs "is_revision").getD Json.null)).bind fun isRev =>
  (parseOptIntGe1 ((alistLookup tkvs "revises_thought").getD Json.null)).bind fun rev =>
  (parseOptIntGe1 ((alistLookup tkvs "branch_from_thought").getD Json.null)).bind fun bft =>
  (parseOptStrJ ((alistLookup tkvs "branch_id").getD Json.null)).bind fun bid =>
  (parseOptBoolJ ((alistLookup tkvs "needs_more_thoughts").getD Json.null)).bind fun nmt =>
  some (isRev, rev, bft, bid, nmt)

/-- The free-text group of optional `Thought` fields. -/
def parseThoughtMetaFields (tkvs : List (String × Json)) :
    Option (Option ℚ × Option String × Option String) :=
  (parseOptConfidence ((alistLookup tkvs "confidence").getD Json.null)).bind fun conf =>
  (parseOptStrJ ((alistLookup tkvs "uncertainty_notes").getD Json.null)).bind fun unc =>
  (parseOptStrJ ((alistLookup tkvs "outcome").getD Json.null)).bind fun outc =>
  some (conf, unc, outc)

/-- The three list-coercion fields of `Thought`. -/
def parseThoughtListFields (tkvs : List (String × Json)) :
    Option (Option (List Assumption) × Option (List String) × Option (List String)) :=
  (parseFalsyAssumptionsField ((alistLookup tkvs "assumptions").getD Json.null)).bind fun asm =>
  (parseIdListField ((alistLookup tkvs "depends_on_assumptions").getD Json.null)).bind fun dep =>
  (parseIdListField ((alistLookup tkvs "invalidates_assumptions").getD Json.null)).bind fun inv =>
  some (asm, dep, inv)

/-- `Thought(**thought_data)` on a decoded JSON dict (strict mode), for a
dict whose `assumptions` value is falsy.  `none` models any caught
exception (`ValidationError`, or `TypeError` from the list coercion). -/
def parseThoughtObj (tkvs : List (String × Json)) : Option Thought :=
  (parseThoughtRequired tkvs).bind fun req =>
  (parseThoughtRevisionFields tkvs).bind fun revs =>
  (parseThoughtMetaFields tkvs).bind fun meta =>
  (parseThoughtListFields tkvs).bind fun ls =>
  some { thought := req.1, thought_number := req.2.1, total_thoughts := req.2.2.1,
         next_thought_needed := req.2.2.2, is_revision := revs.1,
         revises_thought := revs.2.1, branch_from_thought := revs.2.2.1,
         branch_id := revs.2.2.2.1, needs_more_thoughts := revs.2.2.2.2,
         confidence := meta.1, uncertainty_notes := meta.2.1, outcome := meta.2.2,
         assumptions := ls.1, depends_on_assumptions := ls.2.1,
         invalidates_assumptions := ls.2.2 }

/-- `[Assumption(**a) for a in thought_data["assumptions"]]` on a truthy
value.  Iterating a string or a dict yields strings, iterating a number
fails, and `Assumption(**x)` needs a mapping — every non-list-of-dicts shape
raises a caught `TypeError`; invalid dicts raise a caught
`ValidationError`. -/
def convertAssumptionsList : Json → Option (List Assumption)
  | Json.arr xs =>
      xs.foldr (fun j acc =>
        match j with
        | Json.obj o =>
            match parseAssumptionObj o, acc with
            | some a, some l => some (a :: l)
            | _, _ => none
        | _ => none) (some [])
  | _ => none

/-- The outcome of one iteration of the thoughts loop of `load_session`. -/
inductive LoadStep where
  | raisedStep
  | caughtStep
  | okStep (t : Thought)

/-- One iteration of the thoughts loop.  On a truthy `assumptions` value the
source first replaces it by a list of `Assumption` objects; if that
conversion raises, the exception is caught, and if it succeeds,
`Thought(**thought_data)` hands an actual list to the coercion validator,
whose membership test `value in {"", "null"}` hashes the list and raises a
caught `TypeError`.  Either way the iteration ends in the caught state.  A
non-dict element raises `AttributeError` at `thought_data.get(...)`, which
`load_session` does not catch. -/
def loadThought (td : Json) : LoadStep :=
  match td with
  | Json.obj tkvs =>
      let av := (alistLookup tkvs "assumptions").getD Json.null
      if jTruthy av then
        match convertAssumptionsList av with
        | some _ => LoadStep.caughtStep
        | none => LoadStep.caughtStep
      else
        match parseThoughtObj tkvs with
        | some t => LoadStep.okStep t
        | none => LoadStep.caughtStep
  | _ => LoadStep.raisedStep

/-- Outcome of iterating `data.get("thoughts", [])` itself: a list iterates
its elements; a non-empty string or dict iterates strings, whose `.get`
raises an uncaught `AttributeError` on the first element; an empty string or
dict iterates nothing; other values are not iterable (`TypeError`,
caught). -/
inductive ThoughtsIter where
  | raisedIter
  | caughtIter
  | elems (xs : List Json)

/-- Classify the `thoughts` value for iteration. -/
def thoughtsIterOf : Json → ThoughtsIter
  | Json.arr xs => ThoughtsIter.elems xs
  | Json.str s => if s = "" then ThoughtsIter.elems [] else ThoughtsIter.raisedIter
  | Json.obj kvs => if kvs.isEmpty then ThoughtsIter.elems [] else ThoughtsIter.raisedIter
  | _ => ThoughtsIter.caughtIter

/-- Result of the whole thoughts loop. -/
inductive ThoughtsOut where
  | raisedT
  | caughtT
  | okT (ts : List Thought)

/-- The thoughts loop of `load_session`. -/
def loadThoughtsLoop : List Json → ThoughtsOut
  | [] => ThoughtsOut.okT []
  | td :: rest =>
      match loadThought td with
      | LoadStep.raisedStep => ThoughtsOut.raisedT
      | LoadStep.caughtStep => ThoughtsOut.caughtT
      | LoadStep.okStep t =>
          match loadThoughtsLoop rest with
          | ThoughtsOut.raisedT => ThoughtsOut.raisedT
          | ThoughtsOut.caughtT => ThoughtsOut.caughtT
          | ThoughtsOut.okT ts => ThoughtsOut.okT (t :: ts)

/-- The branch index rebuilt while reloading thoughts (`if thought.is_branch
and thought.branch_id:` — the same truthiness as `is_branch` itself). -/
def rebuildBranchesAux (bs : List (String × List Thought)) :
    List Thought → List (String × List Thought)
  | [] => bs
  | t :: ts =>
      rebuildBranchesAux
        (if t.is_branch then
           match t.branch_id with
           | some bid => branchAppend bs bid t
           | none => bs
         else bs) ts

/-- The raw assignments `session._unresolved_refs = data.get(...)` perform
no validation; a malformed value is stored as-is in Python and is not
observable by any claim here, so the model keeps only the well-typed
strings. -/
def decodeStrListLenient : Json → List String
  | Json.arr xs =>
      xs.filterMap (fun j => match j with | Json.str s => some s | _ => none)
  | _ => []

/-- Reconstruction of a session from the decoded JSON document (the `try`
body of `load_session` plus its `except` clause).  `data.get(...)` on a
non-dict document and `.items()` on a non-dict `assumptions` value raise
`AttributeError`, which is not caught. -/
def reconstructSession (data : Json) : LoadRes :=
  match data with
  | Json.obj kvs =>
      match (alistLookup kvs "assumptions").getD (Json.obj []) with
      | Json.obj akvs =>
          match loadAssumptionsLoop akvs with
          | none => LoadRes.absent
          | some amap =>
              match thoughtsIterOf ((alistLookup kvs "thoughts").getD (Json.arr [])) with
              | ThoughtsIter.raisedIter => LoadRes.raised
              | ThoughtsIter.caughtIter => LoadRes.absent
              | ThoughtsIter.elems xs =>
                  match loadThoughtsLoop xs with
                  | ThoughtsOut.raisedT => LoadRes.raised
                  | ThoughtsOut.caughtT => LoadRes.absent
                  | ThoughtsOut.okT ts =>
                      LoadRes.loaded
                        { thoughts := ts,
                          branches := rebuildBranchesAux [] ts,
                          assumptions := amap,
                          unresolved_refs := decodeStrListLenient
                            ((alistLookup kvs "unresolved_refs").getD (Json.arr [])),
                          cross_session_warnings := decodeStrListLenient
                            ((alistLookup kvs "cross_session_warnings").getD (Json.arr [])) }
      | _ => LoadRes.raised
  | _ => LoadRes.raised

/-- What the storage holds for a session id: no file, a file whose bytes
fail to parse as JSON (`json.JSONDecodeError`/`OSError`, caught), or a
parsed document. -/
inductive StoredRecord where
  | missing
  | unparsable
  | parsed (j : Json)

/-- `load_session` for a valid session id, as a function of the stored
record. -/
def loadSessionFrom : StoredRecord → LoadRes
  | StoredRecord.missing => LoadRes.absent
  | StoredRecord.unparsable => LoadRes.absent
  | StoredRecord.parsed j => reconstructSession j

/-- The `ThoughtRequest` pydantic model without `session_id` (the service
strips it before building the thought; claims quantify over the session the
id resolves to). -/
structure ThoughtRequest where
  thought : String
  total_thoughts : Int
  next_thought_needed : Option Bool
  thought_number : Option Int
  is_revision : Option Bool
  revises_thought : Option Int
  branch_from_thought : Option Int
  branch_id : Option String
  needs_more_thoughts : Option Bool
  confidence : Option ℚ
  uncertainty_notes : Option String
  outcome : Option String
  assumptions : Option (List Assumption)
  depends_on_assumptions : Option (List String)
  invalidates_assumptions : Option (List String)
deriving DecidableEq, Repr

/-! ## Service: cross-session resolution and `process_thought`

The service holds a cache `self._sessions` (session id → live session).
Loading from disk is abstracted by a function `loadFn : String → Option
ThinkingSession` (the composition of `load_session` with the stored records;
`none` covers both a missing and an unloadable record).  The service-level
model works on one already-obtained session, as `_get_or_create_session`
supplies it; id generation and the final `save_session` write touch only
the disk, not the observable response or session state. -/

/-- `UltraThinkService._resolve_cross_session_assumption`, returning the new
cache and the `was_resolved` flag.  A freshly loaded target session is stored
in the cache unmodified; nothing is ever written to the target session. -/
def resolveCross (loadFn : String → Option ThinkingSession)
    (cache : List (String × ThinkingSession)) (scopedId : String) :
    List (String × ThinkingSession) × Bool :=
  match (parseAssumptionId scopedId).1, (parseAssumptionId scopedId).2 with
  | none, _ => (cache, true)
  | some target, localId =>
      match alistLookup cache target with
      | some sess => (cache, (alistLookup sess.assumptions localId).isSome)
      | none =>
          match loadFn target with
          | none => (cache, false)
          | some sess =>
              (cache ++ [(target, sess)],
               (alistLookup sess.assumptions localId).isSome)

/-- The loop of `process_thought` building `validated_cross_session_refs`:
only entries containing a colon are resolved; resolved ones are collected in
order. -/
def buildRefsLoop (loadFn : String → Option ThinkingSession)
    (cache : List (String × ThinkingSession)) (acc : List String) :
    List String → List (String × ThinkingSession) × List String
  | [] => (cache, acc)
  | aid :: rest =>
      if hasColon aid then
        match resolveCross loadFn cache aid with
        | (cache1, resolved) =>
            buildRefsLoop loadFn cache1 (if resolved then acc ++ [aid] else acc) rest
      else buildRefsLoop loadFn cache acc rest

/-- Errors that abort `process_thought` before a response is produced. -/
inductive ProcErr where
  | listCoercion
  | constructError
  | addError (e : AddError)
deriving DecidableEq, Repr

/-- `Thought(**thought_data)` on the dict produced by
`request.model_dump(exclude={"session_id"})` with `thought_number` and
`next_thought_needed` overridden.  The dict holds actual Python values, so
each of the three list fields, when not `None`, is an actual list and the
coercion validator's membership test `value in {"", "null"}` hashes it and
raises `TypeError` (`listCoercion`); the remaining fields are re-validated
(`constructError` models a `ValidationError`).  Request values that already
passed `ThoughtRequest` validation satisfy these checks. -/
def mkThought (req : ThoughtRequest) (n : Int) (next : Bool) :
    Except ProcErr Thought :=
  if req.assumptions.isSome || req.depends_on_assumptions.isSome
      || req.invalidates_assumptions.isSome then
    Except.error ProcErr.listCoercion
  else if req.thought.toList.all isPyWhitespace then
    Except.error ProcErr.constructError
  else if decide (n < 1) || decide (req.total_thoughts < 1) then
    Except.error ProcErr.constructError
  else if (match req.revises_thought with
           | some r => decide (r < 1)
           | none => false) then
    Except.error ProcErr.constructError
  else if (match req.branch_from_thought with
           | some r => decide (r < 1)
           | none => false) then
    Except.error ProcErr.constructError
  else if (match req.confidence with
           | some c => decide (c < 0) || decide (1 < c)
           | none => false) then
    Except.error ProcErr.constructError
  else
    Except.ok
      { thought := req.thought, thought_number := n,
        total_thoughts := req.total_thoughts, next_thought_needed := next,
        is_revision := req.is_revision, revises_thought := req.revises_thought,
        branch_from_thought := req.branch_from_thought, branch_id := req.branch_id,
        needs_more_thoughts := req.needs_more_thoughts, confidence := req.confidence,
        uncertainty_notes := req.uncertainty_notes, outcome := req.outcome,
        assumptions := none, depends_on_assumptions := none,
        invalidates_assumptions := none }

/-- The `ThoughtResponse` snapshot built at the end of `process_thought`
(without the session id, which the caller already holds). -/
structure CoreResponse where
  thought_number : Int
  total_thoughts : Int
  next_thought_needed : Bool
  branches : List String
  thought_history_length : Nat
  confidence : Option ℚ
  uncertainty_notes : Option String
  outcome : Option String
  all_assumptions : List (String × Assumption)
  risky_assumptions : List String
  falsified_assumptions : List String
  unresolved_references : List String
  cross_session_warnings : List String
deriving DecidableEq, Repr

/-- Lines 682–728 of the source for an already-obtained session: assign
`thought_number` (count + 1 when omitted) and `next_thought_needed`
(`thought_number < request.total_thoughts` when omitted), resolve the
scoped dependencies against the cache, construct the thought and append it.
Returns the updated cache, the session state after the call (on an
`add_thought` error this keeps the partial mutations, as in Python), and
the response or the raised error.  The response reads the thought after
`add_thought` mutated its `total_thoughts` via `auto_adjust_total`. -/
def processThoughtWith (loadFn : String → Option ThinkingSession)
    (cache : List (String × ThinkingSession)) (session : ThinkingSession)
    (req : ThoughtRequest) :
    List (String × ThinkingSession) × ThinkingSession × Except ProcErr CoreResponse :=
  let n : Int := match req.thought_number with
    | none => (session.thought_count : Int) + 1
    | some k => k
  let next : Bool := match req.next_thought_needed with
    | none => decide (n < req.total_thoughts)
    | some b => b
  let cr := buildRefsLoop loadFn cache [] (req.depends_on_assumptions.getD [])
  match mkThought req n next with
  | Except.error e => (cr.1, session, Except.error e)
  | Except.ok t =>
      match addThought session t cr.2 with
      | (s1, some e) => (cr.1, s1, Except.error (ProcErr.addError e))
      | (s1, none) =>
          let ta := adjustTotal t
          (cr.1, s1, Except.ok
            { thought_number := ta.thought_number,
              total_thoughts := ta.total_thoughts,
              next_thought_needed := ta.next_thought_needed,
              branches := s1.branch_ids,
              thought_history_length := s1.thought_count,
              confidence := ta.confidence,
              uncertainty_notes := ta.uncertainty_notes,
              outcome := ta.outcome,
              all_assumptions := s1.assumptions,
              risky_assumptions := riskyOf s1.assumptions,
              falsified_assumptions := falsifiedOf s1.assumptions,
              unresolved_references := s1.unresolved_refs,
              cross_session_warnings := s1.cross_session_warnings })

/-! ## Concrete instances used by the claim theorems and witnesses -/

/-- A minimal well-formed thought with no optional features. -/
def baseThought : Thought :=
  { thought := "Base", thought_number := 1, total_thoughts := 3,
    next_thought_needed := true, is_revision := none, revises_thought := none,
    branch_from_thought := none, branch_id := none, needs_more_thoughts := none,
    confidence := none, uncertainty_notes := none, outcome := none,
    assumptions := none, depends_on_assumptions := none,
    invalidates_assumptions := none }

/-- The assumption `A1` of the round-trip scenario (the repository's own
`test_save_and_load_with_assumptions` uses the same shape). -/
def assumptionA1 : Assumption :=
  { id := "A1", text := "Test assumption", confidence := 1, critical := true,
    verifiable := false, evidence := none, verification_status := none }

/-- Thought #1 declaring `A1`. -/
def declareA1Thought : Thought :=
  { baseThought with thought := "Declare", assumptions := some [assumptionA1] }

/-- The session obtained by appending `declareA1Thought` to a fresh session. -/
def sessionWithA1 : ThinkingSession :=
  (addThought thinkEmpty declareA1Thought []).1

/-- A session holding the single plain thought #1. -/
def sessionOne : ThinkingSession := (addThought thinkEmpty baseThought []).1

/-- A thought carrying a dangling `revises_thought` but no revision marker. -/
def bareReviseThought : Thought := { baseThought with revises_thought := some 5 }

/-- A marked revision of the missing thought 2. -/
def revisionOf2 : Thought :=
  { baseThought with thought := "Revise", thought_number := 2,
                     is_revision := some true, revises_thought := some 2 }

/-- A thought branching from the missing thought 5. -/
def branchFrom5Thought : Thought :=
  { baseThought with thought := "Branch", thought_number := 2,
                     branch_from_thought := some 5, branch_id := some "alt" }

/-- A plain second thought. -/
def plain2Thought : Thought :=
  { baseThought with thought := "Second", thought_number := 2 }

/-- An existing registry record for `A1` with mutable fields to overwrite. -/
def oldA1 : Assumption :=
  { id := "A1", text := "Test", confidence := 1/2, critical := true,
    verifiable := false, evidence := none,
    verification_status := some VStatus.unverified }

/-- A re-declaration of `A1` changing only the four mutable fields. -/
def newA1 : Assumption :=
  { oldA1 with confidence := 9/10, verifiable := true,
               evidence := some "measured",
               verification_status := some VStatus.verified_true }

/-- A re-declaration of `A1` changing the immutable `text`. -/
def newA1BadText : Assumption := { oldA1 with text := "Different" }

/-- A re-declaration of `A1` changing the immutable `critical` flag. -/
def newA1BadCritical : Assumption := { oldA1 with critical := false }

/-- A session whose registry already holds `oldA1`. -/
def sessionOldA1 : ThinkingSession :=
  { thinkEmpty with assumptions := [("A1", oldA1)] }

/-- A thought declaring the given assumption. -/
def declThought (a : Assumption) : Thought :=
  { baseThought with thought := "Declare", thought_number := 2,
                     assumptions := some [a] }

/-- A thought invalidating the given assumption id. -/
def invalidatesThought (e : String) : Thought :=
  { baseThought with thought := "Invalidate", thought_number := 2,
                     invalidates_assumptions := some [e] }

/-- A thought depending twice on the scoped reference `other:A1`. -/
def dependsOtherThought : Thought :=
  { baseThought with thought := "Depend",
                     depends_on_assumptions := some ["other:A1", "other:A1"] }

/-- A request with explicit `thought_number = 5` and `total_thoughts = 5`. -/
def requestFive : ThoughtRequest :=
  { thought := "a", total_thoughts := 5, next_thought_needed := some false,
    thought_number := some 5, is_revision := none, revises_thought := none,
    branch_from_thought := none, branch_id := none, needs_more_thoughts := none,
    confidence := none, uncertainty_notes := none, outcome := none,
    assumptions := none, depends_on_assumptions := none,
    invalidates_assumptions := none }

/-- A follow-up request with `total_thoughts = 1` and everything assigned
automatically. -/
def requestAutoOne : ThoughtRequest :=
  { requestFive with thought := "b", total_thoughts := 1,
                     thought_number := none, next_thought_needed := none }

/-- First invocation of the `total_thoughts` scenario. -/
def firstRunC5 :
    List (String × ThinkingSession) × ThinkingSession × Except ProcErr CoreResponse :=
  processThoughtWith (fun _ => none) [] thinkEmpty requestFive

/-- Second invocation of the `total_thoughts` scenario, on the session the
first one produced. -/
def secondRunC5 :
    List (String × ThinkingSession) × ThinkingSession × Except ProcErr CoreResponse :=
  processThoughtWith (fun _ => none) [] firstRunC5.2.1 requestAutoOne

/-- Observe the `thought_number` of a successful response. -/
def okThoughtNumber : Except ProcErr CoreResponse → Option Int
  | Except.ok r => some r.thought_number
  | Except.error _ => none

/-- Observe the `total_thoughts` of a successful response. -/
def okTotalThoughts : Except ProcErr CoreResponse → Option Int
  | Except.ok r => some r.total_thoughts
  | Except.error _ => none

/-- Observe the `next_thought_needed` of a successful response. -/
def okNextNeeded : Except ProcErr CoreResponse → Option Bool
  | Except.ok r => some r.next_thought_needed
  | Except.error _ => none

/-- The response of processing `requestFive` on an empty session. -/
def c5resp1 : CoreResponse :=
  { thought_number := 5, total_thoughts := 5, next_thought_needed := false,
    branches := [], thought_history_length := 1, confidence := none,
    uncertainty_notes := none, outcome := none, all_assumptions := [],
    risky_assumptions := [], falsified_assumptions := [],
    unresolved_references := [], cross_session_warnings := [] }

/-- The response of processing `requestAutoOne` on the session `requestFive`
produced. -/
def c5resp2 : CoreResponse :=
  { thought_number := 2, total_thoughts := 2, next_thought_needed := false,
    branches := [], thought_history_length := 2, confidence := none,
    uncertainty_notes := none, outcome := none, all_assumptions := [],
    risky_assumptions := [], falsified_assumptions := [],
    unresolved_references := [], cross_session_warnings := [] }

/-! ## Helper lemmas about the registry operations -/

theorem alistLookup_update_self (l : List (String × α)) (k : String) (f : α → α) :
    alistLookup (alistUpdate l k f) k = (alistLookup l k).map f := by
  induction l with
  | nil => simp [alistUpdate, alistLookup]
  | cons p rest ih =>
      obtain ⟨k1, v1⟩ := p
      by_cases h : k1 = k <;> simp [alistUpdate, alistLookup, h, ih]

theorem alistUpdate_keys (l : List (String × α)) (k : String) (f : α → α) :
    (alistUpdate l k f).map Prod.fst = l.map Prod.fst := by
  induction l with
  | nil => simp [alistUpdate]
  | cons p rest ih =>
      obtain ⟨k1, v1⟩ := p
      by_cases h : k1 = k <;> simp [alistUpdate, h, ih]

theorem alistLookup_append_self (l : List (String × α)) (k : String) (v : α)
    (h : alistLookup l k = none) : alistLookup (l ++ [(k, v)]) k = some v := by
  induction l with
  | nil => simp [alistLookup]
  | cons p rest ih =>
      obtain ⟨k1, v1⟩ := p
      by_cases hk : k1 = k
      · simp [alistLookup, hk] at h
      · simp [alistLookup, hk] at h ⊢
        exact ih h

theorem mem_falsifiedOf (l : List (String × Assumption)) (k : String)
    (r : Assumption) (h : alistLookup l k = some r)
    (hf : r.is_falsified = true) : k ∈ falsifiedOf l := by
  induction l with
  | nil => simp [alistLookup] at h
  | cons p rest ih =>
      obtain ⟨k1, v1⟩ := p
      by_cases hk : k1 = k
      · subst hk
        simp [alistLookup] at h
        subst h
        simp [falsifiedOf, hf]
      · simp [alistLookup, hk] at h
        have hmem := ih h
        simp only [falsifiedOf, List.filter_cons] at hmem ⊢
        by_cases hv : v1.is_falsified <;> simp_all

/-! ## Preservation lemmas: the three loops of `add_thought` never touch the
thought log or the branch index -/

theorem dependsStep_preserve (s : ThinkingSession) (refs : List String)
    (aid : String) :
    (dependsStep s refs aid).1.thoughts = s.thoughts ∧
    (dependsStep s refs aid).1.branches = s.branches := by
  unfold dependsStep
  cases (parseAssumptionId aid).1 <;> simp <;> split_ifs <;> simp

theorem dependsLoop_preserve (refs : List String) :
    ∀ (l : List String) (s : ThinkingSession),
    (dependsLoop s refs l).1.thoughts = s.thoughts ∧
    (dependsLoop s refs l).1.branches = s.branches := by
  intro l
  induction l with
  | nil => intro s; simp [dependsLoop]
  | cons aid rest ih =>
      intro s
      have hstep := dependsStep_preserve s refs aid
      unfold dependsLoop
      rcases hres : dependsStep s refs aid with ⟨s1, e⟩
      rw [hres] at hstep
      cases e with
      | some e => simpa using hstep
      | none =>
          simp only
          have := ih s1
          exact ⟨by rw [this.1, hstep.1], by rw [this.2, hstep.2]⟩

theorem upsertStep_preserve (s : ThinkingSession) (a : Assumption) :
    (upsertStep s a).1.thoughts = s.thoughts ∧
    (upsertStep s a).1.branches = s.branches := by
  unfold upsertStep
  cases alistLookup s.assumptions a.id <;> simp <;> split_ifs <;> simp

theorem upsertLoop_preserve :
    ∀ (l : List Assumption) (s : ThinkingSession),
    (upsertLoop s l).1.thoughts = s.thoughts ∧
    (upsertLoop s l).1.branches = s.branches := by
  intro l
  induction l with
  | nil => intro s; simp [upsertLoop]
  | cons a rest ih =>
      intro s
      have hstep := upsertStep_preserve s a
      unfold upsertLoop
      rcases hres : upsertStep s a with ⟨s1, e⟩
      rw [hres] at hstep
      cases e with
      | some e => simpa using hstep
      | none =>
          simp only
          have := ih s1
          exact ⟨by rw [this.1, hstep.1], by rw [this.2, hstep.2]⟩

theorem invalidateStep_preserve (s : ThinkingSession) (aid : String) :
    (invalidateStep s aid).1.thoughts = s.thoughts ∧
    (invalidateStep s aid).1.branches = s.branches := by
  unfold invalidateStep
  cases (parseAssumptionId aid).1 <;> simp <;> split_ifs <;> simp

theorem invalidateLoop_preserve :
    ∀ (l : List String) (s : ThinkingSession),
    (invalidateLoop s l).1.thoughts = s.thoughts ∧
    (invalidateLoop s l).1.branches = s.branches := by
  intro l
  induction l with
  | nil => intro s; simp [invalidateLoop]
  | cons aid rest ih =>
      intro s
      have hstep := invalidateStep_preserve s aid
      unfold invalidateLoop
      rcases hres : invalidateStep s aid with ⟨s1, e⟩
      rw [hres] at hstep
      cases e with
      | some e => simpa using hstep
      | none =>
          simp only
          have := ih s1
          exact ⟨by rw [this.1, hstep.1], by rw [this.2, hstep.2]⟩

/-! ## Bridging lemmas for colon detection -/

theorem splitFirstChar_eq_none (c : Char) :
    ∀ cs : List Char, c ∉ cs → splitFirstChar c cs = none := by
  intro cs
  induction cs with
  | nil => intro _; rfl
  | cons x rest ih =>
      intro h
      have hx : ¬ x = c := fun he => h (he ▸ List.mem_cons_self x rest)
      have hr : c ∉ rest := fun hm => h (List.mem_cons_of_mem x hm)
      simp [splitFirstChar, hx, ih hr]

theorem splitFirstChar_isSome (c : Char) :
    ∀ cs : List Char, c ∈ cs → (splitFirstChar c cs).isSome = true := by
  intro cs
  induction cs with
  | nil => intro h; cases h
  | cons x rest ih =>
      intro h
      by_cases hx : x = c
      · simp [splitFirstChar, hx]
      · have hr : c ∈ rest := by
          rcases List.mem_cons.mp h with h1 | h1
          · exact absurd h1.symm hx
          · exact h1
        rcases hsp : splitFirstChar c rest with _ | p
        · have hsome := ih hr
          rw [hsp] at hsome
          simp at hsome
        · simp [splitFirstChar, hx, hsp]

theorem parseAssumptionId_local (e : String) (h : hasColon e = false) :
    parseAssumptionId e = (none, e) := by
  have hm : ':' ∉ e.toList := by
    intro hm
    have hc : e.toList.contains ':' = true := List.elem_iff.mpr hm
    unfold hasColon at h
    rw [h] at hc
    cases hc
  unfold parseAssumptionId
  rw [splitFirstChar_eq_none ':' e.toList hm]

theorem parseAssumptionId_scoped (e : String) (h : hasColon e = true) :
    ∃ p r, splitFirstChar ':' e.toList = some (p, r) ∧
      parseAssumptionId e = (some (String.mk p), String.mk r) := by
  unfold hasColon at h
  have hm : ':' ∈ e.toList := List.elem_iff.mp h
  have hsome := splitFirstChar_isSome ':' e.toList hm
  rcases hsp : splitFirstChar ':' e.toList with _ | ⟨p, r⟩
  · rw [hsp] at hsome; simp at hsome
  · exact ⟨p, r, rfl, by unfold parseAssumptionId; rw [hsp]⟩

/-! ## `auto_adjust_total` only changes `total_thoughts` -/

@[simp] theorem adjustTotal_thought_number (t : Thought) :
    (adjustTotal t).thought_number = t.thought_number := rfl

@[simp] theorem adjustTotal_is_revision (t : Thought) :
    (adjustTotal t).is_revision = t.is_revision := rfl

@[simp] theorem adjustTotal_revises_thought (t : Thought) :
    (adjustTotal t).revises_thought = t.revises_thought := rfl

@[simp] theorem adjustTotal_branch_from_thought (t : Thought) :
    (adjustTotal t).branch_from_thought = t.branch_from_thought := rfl

@[simp] theorem adjustTotal_branch_id (t : Thought) :
    (adjustTotal t).branch_id = t.branch_id := rfl

@[simp] theorem adjustTotal_assumptions (t : Thought) :
    (adjustTotal t).assumptions = t.assumptions := rfl

@[simp] theorem adjustTotal_depends_on_assumptions (t : Thought) :
    (adjustTotal t).depends_on_assumptions = t.depends_on_assumptions := rfl

@[simp] theorem adjustTotal_invalidates_assumptions (t : Thought) :
    (adjustTotal t).invalidates_assumptions = t.invalidates_assumptions := rfl

@[simp] theorem adjustTotal_is_branch (t : Thought) :
    (adjustTotal t).is_branch = t.is_branch := rfl

@[simp] theorem adjustTotal_isRevisionTruthy (t : Thought) :
    (adjustTotal t).isRevisionTruthy = t.isRevisionTruthy := rfl

theorem reviseError_adjust (t : Thought) (l : List Int) :
    reviseError (adjustTotal t) l = reviseError t l := rfl

theorem branchError_adjust (t : Thought) (l : List Int) :
    branchError (adjustTotal t) l = branchError t l := rfl

theorem validateReferences_adjust (t : Thought) (l : List Int) :
    validateReferences (adjustTotal t) l = validateReferences t l := rfl

/-! ## C1 – C3: persistence claims -/

/-- C1: the claim states that for every session `S` and valid id, loading
what was saved reconstructs a session with the same thought count, the same
assumption map and the same branch id set.  The code violates this: for the
reachable session whose single thought declares assumption `A1`,
`load_session(save_session(...))` returns absent (`None`), because the saved
thought's `assumptions` list is truthy, and after reconstruction of the
embedded `Assumption` objects the `Thought` constructor hands an actual list
to `_parse_json_list`, whose membership test `value in {"", "null"}` hashes
the list and raises a `TypeError` that `load_session` treats as corruption.
The repository's own test `test_save_and_load_with_assumptions` asserts the
round-trip succeeds, so the code contradicts its own tests: a code bug. -/
theorem c1_roundtrip_lost_for_assumption_sessions :
    (addThought thinkEmpty declareA1Thought []).2 = none ∧
    sessionWithA1.thought_count = 1 ∧
    sessionWithA1.assumptions = [("A1", assumptionA1)] ∧
    reconstructSession (saveSessionJson sessionWithA1) = LoadRes.absent :=
  ⟨rfl, rfl, rfl, rfl⟩

/-- C2: the claim states that `load_session` returns absent, never raises,
when the record is missing, unparsable, or structurally wrong — including a
`thoughts` field that is not a list.  The first two cases hold, but a record
`{"thoughts": "not_a_list"}` (the exact fixture of the repository's own
`test_load_invalid_structure`, which asserts `None`) makes the loop iterate
the string's characters and call `.get` on a one-character string, raising
an `AttributeError` that the `except (KeyError, TypeError, ValidationError)`
clause does not catch: the call raises instead of returning absent — a code
bug. -/
theorem c2_corrupt_thoughts_field_raises :
    loadSessionFrom StoredRecord.missing = LoadRes.absent ∧
    loadSessionFrom StoredRecord.unparsable = LoadRes.absent ∧
    loadSessionFrom (StoredRecord.parsed
      (Json.obj [("thoughts", Json.str "not_a_list")])) = LoadRes.raised :=
  ⟨rfl, rfl, rfl⟩

/-- C3: the claim states that a session id is rejected (on both the save and
load paths, before any storage address is built) if and only if it is
non-empty, at most 128 characters and made only of ASCII letters, digits,
hyphen, underscore — and in particular that every id containing a newline is
rejected.  The code violates the newline part: Python's `re.match` with the
pattern `^[a-zA-Z0-9_-]+$` accepts `"abc\n"` because `$` also matches just
before a single trailing newline, so validation passes and the storage file
name `"abc\n.json"` is built, contradicting the code's own error message
("must contain only alphanumeric characters, hyphens, and underscores"): a
code bug. -/
theorem c3_trailing_newline_id_accepted :
    validateSessionId "abc\n" = none ∧
    specSessionIdOk "abc\n" = false ∧
    sessionFilePathSuffix "abc\n" = some "abc\n.json" ∧
    validateSessionId "a.b" = some IdError.badChars ∧
    validateSessionId "" = some IdError.emptyId :=
  ⟨rfl, rfl, rfl, rfl, rfl⟩

/-! ## C8: an aborted append leaves the log and branch index unchanged -/

/-- C8: for every session and every append that aborts with an error, the
in-memory thought log and the branch index are unchanged (the thought is
never appended); mutations the source applied to the assumption registry
before the raise are allowed to remain, as the claim permits. -/
theorem c8_abort_preserves_log (s : ThinkingSession) (t : Thought)
    (refs : List String) (e : AddError)
    (h : (addThought s t refs).2 = some e) :
    (addThought s t refs).1.thoughts = s.thoughts ∧
    (addThought s t refs).1.branches = s.branches := by
  simp only [addThought] at h ⊢
  rcases hval : validateReferences (adjustTotal t) (thoughtNumbers s) with _ | e1
  case some => exact ⟨rfl, rfl⟩
  case none =>
  simp only at h ⊢
  rcases hdep : dependsLoop s refs ((adjustTotal t).depends_on_assumptions.getD [])
    with ⟨s1, _ | e2⟩
  case mk.some =>
    have hdepp := dependsLoop_preserve refs ((adjustTotal t).depends_on_assumptions.getD []) s
    rw [hdep] at hdepp
    simp only at h hdepp ⊢
    exact ⟨hdepp.1, hdepp.2⟩
  case mk.none =>
  have hdepp := dependsLoop_preserve refs ((adjustTotal t).depends_on_assumptions.getD []) s
  rw [hdep] at hdepp
  simp only at h hdepp ⊢
  rcases hup : upsertLoop s1 ((adjustTotal t).assumptions.getD []) with ⟨s2, _ | e3⟩
  case mk.some =>
    have hupp := upsertLoop_preserve ((adjustTotal t).assumptions.getD []) s1
    rw [hup] at hupp
    simp only at h hupp ⊢
    exact ⟨by rw [hupp.1, hdepp.1], by rw [hupp.2, hdepp.2]⟩
  case mk.none =>
  have hupp := upsertLoop_preserve ((adjustTotal t).assumptions.getD []) s1
  rw [hup] at hupp
  simp only at h hupp ⊢
  rcases hinv : invalidateLoop s2 ((adjustTotal t).invalidates_assumptions.getD [])
    with ⟨s3, _ | e4⟩
  case mk.some =>
    have hinvp := invalidateLoop_preserve ((adjustTotal t).invalidates_assumptions.getD []) s2
    rw [hinv] at hinvp
    simp only at h hinvp ⊢
    exact ⟨by rw [hinvp.1, hupp.1, hdepp.1], by rw [hinvp.2, hupp.2, hdepp.2]⟩
  case mk.none =>
  rw [hval] at h
  simp only at h
  rw [hdep] at h
  simp only at h
  rw [hup] at h
  simp only at h
  rw [hinv] at h
  simp at h

/-- Closed instance of `c8_abort_preserves_log`: re-declaring `A1` with a
different text aborts the append and the log and branch index are untouched. -/
theorem c8_abort_preserves_log_witness :
    (addThought sessionOldA1 (declThought newA1BadText) []).1.thoughts =
      sessionOldA1.thoughts ∧
    (addThought sessionOldA1 (declThought newA1BadText) []).1.branches =
      sessionOldA1.branches :=
  c8_abort_preserves_log sessionOldA1 (declThought newA1BadText) []
    (AddError.textMismatch "A1" "Test" "Different") rfl

/-! ## C4: dangling revision/branch references -/

/-- C4 (amended): the reference checks are guarded by the corresponding
markers.  When a thought is an active revision (`is_revision` truthy) whose
`revises_thought` is absent from the prior thought numbers, or a branch
(`branch_from_thought` and `branch_id` both truthy) whose
`branch_from_thought` is absent, the append fails with the dangling-reference
error citing the missing number — with the distinguished
"no thoughts exist yet, pass session_id" message when the log is empty, and
the sorted list of available numbers otherwise; a bare `revises_thought` or
`branch_from_thought` without its marker is not checked (see the
counterexample); a thought passing the reference validation, with no
assumption fields, appends successfully. -/
theorem c4_amended (s : ThinkingSession) (t : Thought)
    (refs : List String) (n : Int) :
    (t.isRevisionTruthy = true → t.revises_thought = some n →
      n ∉ thoughtNumbers s →
      (addThought s t refs).2 = some
        (if (thoughtNumbers s).isEmpty then AddError.danglingReviseEmpty n
         else AddError.danglingRevise n (sortInt (dedupInt (thoughtNumbers s))))) ∧
    (reviseError t (thoughtNumbers s) = none → t.is_branch = true →
      t.branch_from_thought = some n → n ∉ thoughtNumbers s →
      (addThought s t refs).2 = some
        (if (thoughtNumbers s).isEmpty then AddError.danglingBranchEmpty n
         else AddError.danglingBranch n (sortInt (dedupInt (thoughtNumbers s))))) ∧
    (validateReferences t (thoughtNumbers s) = none →
      t.assumptions = none → t.depends_on_assumptions = none →
      t.invalidates_assumptions = none →
      (addThought s t refs).2 = none ∧
      (addThought s t refs).1.thoughts = s.thoughts ++ [adjustTotal t]) := by
  refine ⟨?_, ?_, ?_⟩
  · intro h1 h2 h3
    have hcontains : (thoughtNumbers s).contains n = false := by
      by_cases hc : (thoughtNumbers s).contains n = true
      · exact absurd (List.elem_iff.mp hc) h3
      · simpa using hc
    have hrev : reviseError t (thoughtNumbers s) = some
        (if (thoughtNumbers s).isEmpty then AddError.danglingReviseEmpty n
         else AddError.danglingRevise n (sortInt (dedupInt (thoughtNumbers s)))) := by
      simp [reviseError, h1, h2, hcontains, h3]
    have hval : validateReferences (adjustTotal t) (thoughtNumbers s) = some
        (if (thoughtNumbers s).isEmpty then AddError.danglingReviseEmpty n
         else AddError.danglingRevise n (sortInt (dedupInt (thoughtNumbers s)))) := by
      rw [validateReferences_adjust]
      unfold validateReferences
      rw [hrev]
    simp only [addThought]
    rw [hval]
  · intro h0 h1 h2 h3
    have hcontains : (thoughtNumbers s).contains n = false := by
      by_cases hc : (thoughtNumbers s).contains n = true
      · exact absurd (List.elem_iff.mp hc) h3
      · simpa using hc
    have hbr : branchError t (thoughtNumbers s) = some
        (if (thoughtNumbers s).isEmpty then AddError.danglingBranchEmpty n
         else AddError.danglingBranch n (sortInt (dedupInt (thoughtNumbers s)))) := by
      simp [branchError, h1, h2, hcontains, h3]
    have hval : validateReferences (adjustTotal t) (thoughtNumbers s) = some
        (if (thoughtNumbers s).isEmpty then AddError.danglingBranchEmpty n
         else AddError.danglingBranch n (sortInt (dedupInt (thoughtNumbers s)))) := by
      rw [validateReferences_adjust]
      unfold validateReferences
      rw [h0]
      simp only
      rw [hbr]
    simp only [addThought]
    rw [hval]
  · intro h0 h1 h2 h3
    have hval : validateReferences (adjustTotal t) (thoughtNumbers s) = none := by
      rw [validateReferences_adjust]; exact h0
    simp only [addThought]
    rw [hval]
    simp only [adjustTotal_depends_on_assumptions, h2, Option.getD_none,
      dependsLoop, adjustTotal_assumptions, h1, upsertLoop,
      adjustTotal_invalidates_assumptions, h3, invalidateLoop]
    by_cases hib : (adjustTotal t).is_branch = true
    · rw [if_pos hib]
      cases hbid : (adjustTotal t).branch_id <;> simp
    · rw [if_neg hib]
      simp

/-- C4 counterexample: the claim as stated quantifies over every thought
whose `revises_thought` or `branch_from_thought` is an absent number.  A
thought with `revises_thought = 5` but no `is_revision` marker is appended
to an empty session without any error, so the claim as stated is false on
the code. -/
theorem c4_counterexample :
    bareReviseThought.revises_thought = some 5 ∧
    thoughtNumbers thinkEmpty = [] ∧
    (addThought thinkEmpty bareReviseThought []).2 = none ∧
    (addThought thinkEmpty bareReviseThought []).1.thought_count = 1 :=
  ⟨rfl, rfl, rfl, rfl⟩

/-- Closed instances of `c4_amended` at concrete inputs, discharging each
hypothesis. -/
theorem c4_amended_witness :
    (addThought sessionOne revisionOf2 []).2 =
      some (AddError.danglingRevise 2 [1]) ∧
    (addThought thinkEmpty revisionOf2 []).2 =
      some (AddError.danglingReviseEmpty 2) ∧
    (addThought sessionOne branchFrom5Thought []).2 =
      some (AddError.danglingBranch 5 [1]) ∧
    (addThought sessionOne plain2Thought []).2 = none ∧
    (addThought sessionOne plain2Thought []).1.thoughts =
      sessionOne.thoughts ++ [adjustTotal plain2Thought] := by
  refine ⟨?_, ?_, ?_, ?_, ?_⟩
  · have h := (c4_amended sessionOne revisionOf2 [] 2).1 rfl rfl (by decide)
    rw [h]; rfl
  · have h := (c4_amended thinkEmpty revisionOf2 [] 2).1 rfl rfl (by decide)
    rw [h]; rfl
  · have h := (c4_amended sessionOne branchFrom5Thought [] 5).2.1 rfl rfl rfl (by decide)
    rw [h]; rfl
  · exact ((c4_amended sessionOne plain2Thought [] 0).2.2 rfl rfl rfl rfl).1
  · exact ((c4_amended sessionOne plain2Thought [] 0).2.2 rfl rfl rfl rfl).2

/-! ## C6: the assumption upsert contract -/

/-- C6: for every session, re-declaring an already-known assumption id with
the same `text` and `critical` succeeds and overwrites exactly the four
mutable fields (`confidence`, `verifiable`, `evidence`,
`verification_status`) in place, leaving the key set unchanged; a different
`text`, or a different `critical` under equal `text`, fails with the
immutable-field violation reporting both the stored and the attempted
value (the text check runs first); an unknown id is inserted. -/
theorem c6_upsert (s : ThinkingSession) (a r : Assumption) (t : Thought)
    (ht1 : t.is_revision = none) (ht2 : t.branch_from_thought = none)
    (ht3 : t.depends_on_assumptions = none) (ht4 : t.assumptions = some [a])
    (ht5 : t.invalidates_assumptions = none) :
    (alistLookup s.assumptions a.id = some r → r.text = a.text →
      r.critical = a.critical →
      (addThought s t []).2 = none ∧
      alistLookup (addThought s t []).1.assumptions a.id =
        some { r with confidence := a.confidence, verifiable := a.verifiable,
                      evidence := a.evidence,
                      verification_status := a.verification_status } ∧
      (addThought s t []).1.assumptions.map Prod.fst =
        s.assumptions.map Prod.fst) ∧
    (alistLookup s.assumptions a.id = some r → r.text ≠ a.text →
      (addThought s t []).2 = some (AddError.textMismatch a.id r.text a.text)) ∧
    (alistLookup s.assumptions a.id = some r → r.text = a.text →
      r.critical ≠ a.critical →
      (addThought s t []).2 =
        some (AddError.criticalMismatch a.id r.critical a.critical)) ∧
    (alistLookup s.assumptions a.id = none →
      (addThought s t []).2 = none ∧
      alistLookup (addThought s t []).1.assumptions a.id = some a) := by
  have hrev : reviseError t (thoughtNumbers s) = none := by
    cases hr : t.revises_thought <;>
      simp [reviseError, Thought.isRevisionTruthy, ht1, hr]
  have hbr : branchError t (thoughtNumbers s) = none := by
    simp [branchError, ht2]
  have hval : validateReferences (adjustTotal t) (thoughtNumbers s) = none := by
    rw [validateReferences_adjust]
    unfold validateReferences
    rw [hrev, hbr]
  have hib : t.is_branch = false := by
    simp [Thought.is_branch, optIntTruthy, ht2]
  refine ⟨?_, ?_, ?_, ?_⟩
  · intro hr htext hcrit
    have hstep : upsertStep s a =
        ({ s with assumptions := alistUpdate s.assumptions a.id (fun old =>
            { old with confidence := a.confidence, verifiable := a.verifiable,
                       evidence := a.evidence,
                       verification_status := a.verification_status }) }, none) := by
      simp [upsertStep, hr, htext, hcrit]
    simp only [addThought]
    rw [hval]
    simp only [adjustTotal_depends_on_assumptions, ht3, Option.getD_none,
      dependsLoop, adjustTotal_assumptions, ht4, Option.getD_some, upsertLoop,
      hstep, adjustTotal_invalidates_assumptions, ht5, invalidateLoop,
      adjustTotal_is_branch, hib]
    simp only [Bool.false_eq_true, if_false]
    refine ⟨trivial, ?_, ?_⟩
    · rw [alistLookup_update_self, hr]
      rfl
    · exact alistUpdate_keys s.assumptions a.id _
  · intro hr htext
    have hstep : upsertStep s a =
        (s, some (AddError.textMismatch a.id r.text a.text)) := by
      simp [upsertStep, hr, htext]
    simp only [addThought]
    rw [hval]
    simp only [adjustTotal_depends_on_assumptions, ht3, Option.getD_none,
      dependsLoop, adjustTotal_assumptions, ht4, Option.getD_some, upsertLoop,
      hstep]
  · intro hr htext hcrit
    have hstep : upsertStep s a =
        (s, some (AddError.criticalMismatch a.id r.critical a.critical)) := by
      simp [upsertStep, hr, htext, hcrit]
    simp only [addThought]
    rw [hval]
    simp only [adjustTotal_depends_on_assumptions, ht3, Option.getD_none,
      dependsLoop, adjustTotal_assumptions, ht4, Option.getD_some, upsertLoop,
      hstep]
  · intro hr
    have hstep : upsertStep s a =
        ({ s with assumptions := s.assumptions ++ [(a.id, a)] }, none) := by
      simp [upsertStep, hr]
    simp only [addThought]
    rw [hval]
    simp only [adjustTotal_depends_on_assumptions, ht3, Option.getD_none,
      dependsLoop, adjustTotal_assumptions, ht4, Option.getD_some, upsertLoop,
      hstep, adjustTotal_invalidates_assumptions, ht5, invalidateLoop,
      adjustTotal_is_branch, hib]
    simp only [Bool.false_eq_true, if_false]
    exact ⟨trivial, alistLookup_append_self s.assumptions a.id a hr⟩

/-- Closed instances of `c6_upsert` at concrete inputs, discharging each
hypothesis. -/
theorem c6_witness :
    (addThought sessionOldA1 (declThought newA1) []).2 = none ∧
    alistLookup (addThought sessionOldA1 (declThought newA1) []).1.assumptions
      "A1" = some newA1 ∧
    (addThought sessionOldA1 (declThought newA1BadText) []).2 =
      some (AddError.textMismatch "A1" "Test" "Different") ∧
    (addThought sessionOldA1 (declThought newA1BadCritical) []).2 =
      some (AddError.criticalMismatch "A1" true false) ∧
    (addThought thinkEmpty (declThought newA1) []).2 = none ∧
    alistLookup (addThought thinkEmpty (declThought newA1) []).1.assumptions
      "A1" = some newA1 := by
  have hA := c6_upsert sessionOldA1 newA1 oldA1 (declThought newA1)
    rfl rfl rfl rfl rfl
  have hB := c6_upsert sessionOldA1 newA1BadText oldA1 (declThought newA1BadText)
    rfl rfl rfl rfl rfl
  have hC := c6_upsert sessionOldA1 newA1BadCritical oldA1
    (declThought newA1BadCritical) rfl rfl rfl rfl rfl
  have hD := c6_upsert thinkEmpty newA1 oldA1 (declThought newA1)
    rfl rfl rfl rfl rfl
  exact ⟨(hA.1 rfl rfl rfl).1, (hA.1 rfl rfl rfl).2.1, hB.2.1 rfl (by decide),
    hC.2.2.1 rfl rfl (by decide), (hD.2.2.2 rfl).1, (hD.2.2.2 rfl).2⟩

/-! ## C7: the invalidation contract -/

/-- C7: for every session and every entry of `invalidates_assumptions`: an
unscoped id known to the registry has its `verification_status` set to
`verified_false` unconditionally — the current status is arbitrary, the
session being universally quantified — and afterwards appears in the
falsified-id list; an unscoped id absent from the registry fails with the
unknown-assumption error carrying the sorted list of known ids (rendered as
the explicit marker "none" by the source when empty); a scoped
(colon-containing) id appends exactly one warning string and mutates no
registry (this session's registry is unchanged and `add_thought` never
touches another session). -/
theorem c7_invalidation (s : ThinkingSession) (r : Assumption) (t : Thought)
    (e : String)
    (ht1 : t.is_revision = none) (ht2 : t.branch_from_thought = none)
    (ht3 : t.depends_on_assumptions = none) (ht4 : t.assumptions = none)
    (ht5 : t.invalidates_assumptions = some [e]) :
    (hasColon e = false → alistLookup s.assumptions e = some r →
      (addThought s t []).2 = none ∧
      alistLookup (addThought s t []).1.assumptions e =
        some { r with verification_status := some VStatus.verified_false } ∧
      e ∈ (addThought s t []).1.falsified_assumptions) ∧
    (hasColon e = false → alistLookup s.assumptions e = none →
      (addThought s t []).2 = some (AddError.unknownInvalidation e
        (sortStr (s.assumptions.map Prod.fst)))) ∧
    (hasColon e = true →
      (addThought s t []).2 = none ∧
      (addThought s t []).1.cross_session_warnings =
        s.cross_session_warnings ++ [crossWarning e] ∧
      (addThought s t []).1.assumptions = s.assumptions) := by
  have hrev : reviseError t (thoughtNumbers s) = none := by
    cases hr : t.revises_thought <;>
      simp [reviseError, Thought.isRevisionTruthy, ht1, hr]
  have hbr : branchError t (thoughtNumbers s) = none := by
    simp [branchError, ht2]
  have hval : validateReferences (adjustTotal t) (thoughtNumbers s) = none := by
    rw [validateReferences_adjust]
    unfold validateReferences
    rw [hrev, hbr]
  have hib : t.is_branch = false := by
    simp [Thought.is_branch, optIntTruthy, ht2]
  refine ⟨?_, ?_, ?_⟩
  · intro he hr
    have hpid := parseAssumptionId_local e he
    have hstep : invalidateStep s e =
        ({ s with assumptions := alistUpdate s.assumptions e (fun a =>
            { a with verification_status := some VStatus.verified_false }) },
         none) := by
      simp [invalidateStep, hpid, hr]
    simp only [addThought]
    rw [hval]
    simp only [adjustTotal_depends_on_assumptions, ht3, Option.getD_none,
      dependsLoop, adjustTotal_assumptions, ht4, upsertLoop,
      adjustTotal_invalidates_assumptions, ht5, Option.getD_some,
      invalidateLoop, hstep, adjustTotal_is_branch, hib]
    simp only [Bool.false_eq_true, if_false]
    refine ⟨trivial, ?_, ?_⟩
    · rw [alistLookup_update_self, hr]
      rfl
    · have hlk : alistLookup (alistUpdate s.assumptions e (fun a =>
          { a with verification_status := some VStatus.verified_false })) e =
          some { r with verification_status := some VStatus.verified_false } := by
        rw [alistLookup_update_self, hr]
        rfl
      exact mem_falsifiedOf _ e _ hlk rfl
  · intro he hr
    have hpid := parseAssumptionId_local e he
    have hstep : invalidateStep s e =
        (s, some (AddError.unknownInvalidation e
          (sortStr (s.assumptions.map Prod.fst)))) := by
      simp [invalidateStep, hpid, hr]
    simp only [addThought]
    rw [hval]
    simp only [adjustTotal_depends_on_assumptions, ht3, Option.getD_none,
      dependsLoop, adjustTotal_assumptions, ht4, upsertLoop,
      adjustTotal_invalidates_assumptions, ht5, Option.getD_some,
      invalidateLoop, hstep]
  · intro he
    obtain ⟨p, rr, hsp, hpid⟩ := parseAssumptionId_scoped e he
    have hstep : invalidateStep s e =
        ({ s with cross_session_warnings :=
            s.cross_session_warnings ++ [crossWarning e] }, none) := by
      simp [invalidateStep, hpid]
    simp only [addThought]
    rw [hval]
    simp only [adjustTotal_depends_on_assumptions, ht3, Option.getD_none,
      dependsLoop, adjustTotal_assumptions, ht4, upsertLoop,
      adjustTotal_invalidates_assumptions, ht5, Option.getD_some,
      invalidateLoop, hstep, adjustTotal_is_branch, hib]
    simp only [Bool.false_eq_true, if_false]
    exact ⟨trivial, trivial, trivial⟩

/-- Closed instances of `c7_invalidation` at concrete inputs, discharging
each hypothesis. -/
theorem c7_witness :
    (addThought sessionOldA1 (invalidatesThought "A1") []).2 = none ∧
    alistLookup (addThought sessionOldA1 (invalidatesThought "A1") []).1.assumptions
      "A1" = some { oldA1 with verification_status := some VStatus.verified_false } ∧
    "A1" ∈ (addThought sessionOldA1 (invalidatesThought "A1") []).1.falsified_assumptions ∧
    (addThought thinkEmpty (invalidatesThought "A9") []).2 =
      some (AddError.unknownInvalidation "A9" []) ∧
    (addThought thinkEmpty (invalidatesThought "other:A1") []).2 = none ∧
    (addThought thinkEmpty (invalidatesThought "other:A1") []).1.cross_session_warnings =
      [crossWarning "other:A1"] ∧
    (addThought thinkEmpty (invalidatesThought "other:A1") []).1.assumptions = [] := by
  have hA := c7_invalidation sessionOldA1 oldA1 (invalidatesThought "A1") "A1"
    rfl rfl rfl rfl rfl
  have hB := c7_invalidation thinkEmpty oldA1 (invalidatesThought "A9") "A9"
    rfl rfl rfl rfl rfl
  have hC := c7_invalidation thinkEmpty oldA1 (invalidatesThought "other:A1")
    "other:A1" rfl rfl rfl rfl rfl
  exact ⟨(hA.1 rfl rfl).1, (hA.1 rfl rfl).2.1, (hA.1 rfl rfl).2.2,
    hB.2.1 rfl rfl, (hC.2.2 rfl).1, (hC.2.2 rfl).2.1, (hC.2.2 rfl).2.2⟩

/-! ## C9: failed scoped dependencies are recorded once, without error -/

/-- Repeated mentions of an already-recorded scoped id leave the unresolved
list untouched. -/
theorem dependsLoop_skip (refs : List String) (e : String) (p : String)
    (hp : (parseAssumptionId e).1 = some p) (hr : refs.contains e = false) :
    ∀ (k : Nat) (s : ThinkingSession), s.unresolved_refs.contains e = true →
      dependsLoop s refs (List.replicate k e) = (s, none) := by
  intro k
  induction k with
  | zero => intro s _; rfl
  | succ m ih =>
      intro s hu
      have hr2 : e ∉ refs := fun hm => by
        have hcon : refs.contains e = true := List.elem_iff.mpr hm
        rw [hcon] at hr
        cases hr
      have hu2 : e ∈ s.unresolved_refs := List.elem_iff.mp hu
      have hstep : dependsStep s refs e = (s, none) := by
        simp [dependsStep, hp, hr2, hu2]
      simp only [List.replicate_succ, dependsLoop, hstep]
      exact ih s hu

/-- C9: for every session and scoped (colon-containing) entry of
`depends_on_assumptions` whose resolution failed (so it is absent from the
validated-refs list), appending a thought that mentions it `k + 1` times
records the full scoped string exactly once (appended to the unresolved
list, deduplicated), raises no error, and the thought is appended; moreover
the resolver itself, whenever it reports failure, either leaves the session
cache unchanged or extends it with the freshly loaded target session
unmodified — it never mutates the target session. -/
theorem c9_scoped_dependency (loadFn : String → Option ThinkingSession)
    (cache : List (String × ThinkingSession)) (s : ThinkingSession)
    (t : Thought) (refs : List String) (e : String) (k : Nat)
    (ht1 : t.is_revision = none) (ht2 : t.branch_from_thought = none)
    (ht3 : t.depends_on_assumptions = some (List.replicate (k + 1) e))
    (ht4 : t.assumptions = none) (ht5 : t.invalidates_assumptions = none) :
    ((resolveCross loadFn cache e).2 = false →
      (resolveCross loadFn cache e).1 = cache ∨
      ∃ tgt sess, (parseAssumptionId e).1 = some tgt ∧
        loadFn tgt = some sess ∧
        (resolveCross loadFn cache e).1 = cache ++ [(tgt, sess)]) ∧
    (hasColon e = true → refs.contains e = false →
      s.unresolved_refs.contains e = false →
      (addThought s t refs).2 = none ∧
      (addThought s t refs).1.unresolved_refs = s.unresolved_refs ++ [e] ∧
      (addThought s t refs).1.thoughts = s.thoughts ++ [adjustTotal t]) := by
  refine ⟨?_, ?_⟩
  · unfold resolveCross
    rcases hpid : (parseAssumptionId e).1 with _ | tgt
    · simp only
      intro hres
      cases hres
    · simp only
      rcases hc : alistLookup cache tgt with _ | sess
      · rcases hl : loadFn tgt with _ | sess2
        · intro _
          exact Or.inl rfl
        · intro _
          exact Or.inr ⟨tgt, sess2, rfl, hl, rfl⟩
      · intro _
        exact Or.inl rfl
  · intro hc hr hu
    obtain ⟨p, rr, hsp, hpid⟩ := parseAssumptionId_scoped e hc
    have hpid1 : (parseAssumptionId e).1 = some (String.mk p) := by rw [hpid]
    have hrev : reviseError t (thoughtNumbers s) = none := by
      cases hrt : t.revises_thought <;>
        simp [reviseError, Thought.isRevisionTruthy, ht1, hrt]
    have hbr : branchError t (thoughtNumbers s) = none := by
      simp [branchError, ht2]
    have hval : validateReferences (adjustTotal t) (thoughtNumbers s) = none := by
      rw [validateReferences_adjust]
      unfold validateReferences
      rw [hrev, hbr]
    have hib : t.is_branch = false := by
      simp [Thought.is_branch, optIntTruthy, ht2]
    have hr2 : e ∉ refs := fun hm => by
      have hcon : refs.contains e = true := List.elem_iff.mpr hm
      rw [hcon] at hr
      cases hr
    have hu2 : e ∉ s.unresolved_refs := fun hm => by
      have hcon : s.unresolved_refs.contains e = true := List.elem_iff.mpr hm
      rw [hcon] at hu
      cases hu
    have hstep : dependsStep s refs e =
        ({ s with unresolved_refs := s.unresolved_refs ++ [e] }, none) := by
      simp [dependsStep, hpid1, hr2, hu2]
    have hloop : dependsLoop s refs (List.replicate (k + 1) e) =
        ({ s with unresolved_refs := s.unresolved_refs ++ [e] }, none) := by
      simp only [List.replicate_succ, dependsLoop, hstep]
      exact dependsLoop_skip refs e (String.mk p) hpid1 hr k _ (by simp)
    simp only [addThought]
    rw [hval]
    simp only [adjustTotal_depends_on_assumptions, ht3, Option.getD_some, hloop,
      adjustTotal_assumptions, ht4, Option.getD_none, upsertLoop,
      adjustTotal_invalidates_assumptions, ht5, invalidateLoop,
      adjustTotal_is_branch, hib]
    simp only [Bool.false_eq_true, if_false]
    exact ⟨trivial, trivial, trivial⟩

/-- Closed instances of `c9_scoped_dependency` at concrete inputs,
discharging each hypothesis. -/
theorem c9_witness :
    (resolveCross (fun _ => none) [] "other:A1").2 = false ∧
    (resolveCross (fun _ => none) [] "other:A1").1 = [] ∧
    (addThought thinkEmpty dependsOtherThought []).2 = none ∧
    (addThought thinkEmpty dependsOtherThought []).1.unresolved_refs =
      ["other:A1"] ∧
    (addThought thinkEmpty dependsOtherThought []).1.thoughts =
      [adjustTotal dependsOtherThought] := by
  have h := c9_scoped_dependency (fun _ => none) [] thinkEmpty
    dependsOtherThought [] "other:A1" 1 rfl rfl rfl rfl rfl
  refine ⟨rfl, ?_, (h.2 rfl rfl rfl).1, (h.2 rfl rfl rfl).2.1, (h.2 rfl rfl rfl).2.2⟩
  rcases h.1 rfl with h1 | ⟨tgt, sess, _, hload, _⟩
  · exact h1
  · cases hload

/-! ## C5 and C10: the `process_thought` assignment pipeline -/

/-- Fields of a thought successfully constructed from a request. -/
theorem mkThought_ok (req : ThoughtRequest) (n : Int) (next : Bool) (t : Thought)
    (h : mkThought req n next = Except.ok t) :
    t.thought_number = n ∧ t.total_thoughts = req.total_thoughts ∧
    t.next_thought_needed = next := by
  unfold mkThought at h
  split at h
  · cases h
  · split at h
    · cases h
    · split at h
      · cases h
      · split at h
        · cases h
        · split at h
          · cases h
          · split at h
            · cases h
            · cases h
              exact ⟨rfl, rfl, rfl⟩

/-- C10: for every processed request that produces a response, an omitted
`thought_number` is assigned the session's current thought count plus one
and an explicit one is used unchanged; an omitted `next_thought_needed` is
set to true exactly when the assigned `thought_number` is strictly below
the request's `total_thoughts`, and an explicit one is used unchanged. -/
theorem c10_assignment (loadFn : String → Option ThinkingSession)
    (cache : List (String × ThinkingSession)) (s : ThinkingSession)
    (req : ThoughtRequest) (resp : CoreResponse) (kk : Int) (b : Bool)
    (h : (processThoughtWith loadFn cache s req).2.2 = Except.ok resp) :
    (req.thought_number = none →
      resp.thought_number = (s.thought_count : Int) + 1) ∧
    (req.thought_number = some kk → resp.thought_number = kk) ∧
    (req.next_thought_needed = none →
      (resp.next_thought_needed = true ↔
        resp.thought_number < req.total_thoughts)) ∧
    (req.next_thought_needed = some b → resp.next_thought_needed = b) := by
  simp only [processThoughtWith] at h
  split at h
  · simp at h
  · rename_i t heq
    split at h
    · simp at h
    · simp only at h
      have hfields := mkThought_ok req _ _ t heq
      have hresp : resp.thought_number = t.thought_number ∧
          resp.next_thought_needed = t.next_thought_needed := by
        cases h
        exact ⟨rfl, rfl⟩
      refine ⟨?_, ?_, ?_, ?_⟩
      · intro hnum
        rw [hresp.1, hfields.1, hnum]
      · intro hnum
        rw [hresp.1, hfields.1, hnum]
      · intro hnext
        rw [hresp.2, hfields.2.2, hnext, hresp.1, hfields.1]
        simp
      · intro hnext
        rw [hresp.2, hfields.2.2, hnext]

/-- C5 (amended): for every append that produces a response, the resulting
`total_thoughts` equals `max(thought_number, requested total_thoughts)`: it
is at least that append's `thought_number` and never below the requested
estimate (self-adjustment is upward only, per append).  It is not compared
against earlier appends, so it is neither guaranteed to stay at or above the
maximum `thought_number` ever appended nor monotone across appends (see the
counterexample). -/
theorem c5_amended (loadFn : String → Option ThinkingSession)
    (cache : List (String × ThinkingSession)) (s : ThinkingSession)
    (req : ThoughtRequest) (resp : CoreResponse)
    (h : (processThoughtWith loadFn cache s req).2.2 = Except.ok resp) :
    resp.total_thoughts = max resp.thought_number req.total_thoughts ∧
    req.total_thoughts ≤ resp.total_thoughts ∧
    resp.thought_number ≤ resp.total_thoughts := by
  simp only [processThoughtWith] at h
  split at h
  · simp at h
  · rename_i t heq
    split at h
    · simp at h
    · simp only at h
      have hfields := mkThought_ok req _ _ t heq
      have hresp : resp.thought_number = t.thought_number ∧
          resp.total_thoughts = max t.thought_number t.total_thoughts := by
        cases h
        exact ⟨rfl, rfl⟩
      refine ⟨?_, ?_, ?_⟩
      · rw [hresp.2, hresp.1, hfields.2.1]
      · rw [hresp.2, ← hfields.2.1]
        exact le_max_right _ _
      · rw [hresp.2, hresp.1]
        exact le_max_left _ _

/-- C5 counterexample: appending thought 5 (`total_thoughts = 5`) and then
an auto-numbered thought with `total_thoughts = 1` yields totals 5 then 2:
the value resulting from the second append is smaller than the previous one
and smaller than the maximum thought number ever appended (5), refuting the
claim as stated. -/
theorem c5_counterexample :
    okThoughtNumber firstRunC5.2.2 = some 5 ∧
    okTotalThoughts firstRunC5.2.2 = some 5 ∧
    okThoughtNumber secondRunC5.2.2 = some 2 ∧
    okTotalThoughts secondRunC5.2.2 = some 2 ∧
    (2 : Int) < 5 :=
  ⟨rfl, rfl, rfl, rfl, by decide⟩

/-- Closed instance of `c5_amended` at a concrete input, discharging its
hypothesis. -/
theorem c5_amended_witness :
    c5resp1.total_thoughts = max c5resp1.thought_number requestFive.total_thoughts ∧
    requestFive.total_thoughts ≤ c5resp1.total_thoughts ∧
    c5resp1.thought_number ≤ c5resp1.total_thoughts :=
  c5_amended (fun _ => none) [] thinkEmpty requestFive c5resp1 rfl

/-- Closed instances of `c10_assignment` at concrete inputs, discharging
each hypothesis. -/
theorem c10_assignment_witness :
    c5resp1.thought_number = 5 ∧ c5resp1.next_thought_needed = false ∧
    c5resp2.thought_number = (firstRunC5.2.1.thought_count : Int) + 1 ∧
    (c5resp2.next_thought_needed = true ↔
      c5resp2.thought_number < requestAutoOne.total_thoughts) := by
  have h1 := c10_assignment (fun _ => none) [] thinkEmpty requestFive c5resp1
    5 false rfl
  have h2 := c10_assignment (fun _ => none) [] firstRunC5.2.1 requestAutoOne
    c5resp2 2 false rfl
  exact ⟨h1.2.1 rfl, h1.2.2.2 rfl, h2.1 rfl, h2.2.2.1 rfl⟩
